import Mathlib

/-!
Shallow embedding of the Cura360 client-side data-access layer
(src/js/patients.js, src/js/wounds.js, src/js/treatments.js).

Each store operation issues at most one request to the remote data-access
client (Supabase) and maps the `(data, error)` response pair to a plain
result, recording side effects explicitly:
  * `requests` — the payloads/queries sent to the backend (one per call,
    or none when the operation short-circuits);
  * `toasts`   — user-facing notifications emitted via `showToast`;
  * `logs`     — diagnostic `console.error` lines.

JavaScript `undefined`/`null` field values are modelled as `Option`;
the JS `x || d` defaulting idiom (which also replaces the falsy empty
string) is `jsOr`; `parseInt(s, 10)` is `parseInt10`, with `none`
standing for `NaN`.
-/

/-- A user-facing notification: `showToast(msg)` has `success := false`
(default severity), `showToast(msg, 'success')` has `success := true`. -/
structure Toast where
  msg : String
  success : Bool
deriving DecidableEq, Repr

/-- The `{ data, error }` pair returned by the Supabase client. -/
structure DbResponse (τ : Type) where
  data : Option τ
  error : Option String
deriving DecidableEq, Repr

/-- The observable outcome of one store call: its return value plus the
trace of backend requests, toasts and error logs it produced. -/
structure CallResult (α : Type) (ρ : Type) where
  result : α
  requests : List ρ
  toasts : List Toast
  logs : List String
deriving DecidableEq, Repr

/-- JS `x || d` on an optional string: absent (`undefined`/`null`) and the
falsy empty string both fall back to the default `d`. -/
def jsOr (v : Option String) (d : String) : String :=
  match v with
  | none => d
  | some s => if s = "" then d else s

/-- The authenticated user returned by `window.CURA360.auth.getCurrentUser()`. -/
structure User where
  id : String
deriving DecidableEq, Repr

def digitsToNat (ds : List Char) : Nat :=
  ds.foldl (fun a c => a * 10 + (c.toNat - 48)) 0

/-- JS `parseInt(s, 10)`: skip leading whitespace, optional sign, read the
leading run of decimal digits; `none` models the `NaN` result when no
digit is found. -/
def parseInt10 (s : String) : Option Int :=
  let cs := s.toList.dropWhile fun c => c == ' ' || c == '\t' || c == '\n' || c == '\r'
  match cs with
  | '-' :: rest =>
      let ds := rest.takeWhile (·.isDigit)
      if ds.isEmpty then none else some (-(digitsToNat ds : Int))
  | '+' :: rest =>
      let ds := rest.takeWhile (·.isDigit)
      if ds.isEmpty then none else some (digitsToNat ds : Int)
  | _ =>
      let ds := cs.takeWhile (·.isDigit)
      if ds.isEmpty then none else some (digitsToNat ds : Int)

/-! ## Patients (src/js/patients.js) -/

/-- The `data` argument of `patients.create`; `age` arrives as the raw
form value handed to `parseInt`. -/
structure PatientInput where
  name : Option String
  age : String
  diagnosis : Option String
  comorbidities : Option String
deriving DecidableEq, Repr

/-- The insert payload built by `patients.create` (lines 32–38):
`name` is passed through unchanged, `age` is `parseInt(data.age, 10)`
(`none` = `NaN`), `diagnosis`/`comorbidities` are defaulted with `|| ''`,
and `professional_id` is the current user's id. -/
structure PatientPayload where
  name : Option String
  age : Option Int
  diagnosis : String
  comorbidities : String
  professional_id : String
deriving DecidableEq, Repr

/-- A stored/returned patient row: the payload fields plus the
server-assigned `id` and `created_at`. -/
structure PatientRow where
  id : String
  name : Option String
  age : Option Int
  diagnosis : String
  comorbidities : String
  professional_id : String
  created_at : Nat
deriving DecidableEq, Repr

def patientPayloadOf (u : User) (data : PatientInput) : PatientPayload :=
  { name := data.name
    age := parseInt10 data.age
    diagnosis := jsOr data.diagnosis ""
    comorbidities := jsOr data.comorbidities ""
    professional_id := u.id }

/-- `patients.create(data)`: returns `null` at once when unauthenticated;
otherwise inserts the payload and maps the response, toasting on both
error and success. -/
def patientsCreate (user : Option User)
    (db : PatientPayload → DbResponse PatientRow)
    (data : PatientInput) : CallResult (Option PatientRow) PatientPayload :=
  match user with
  | none => ⟨none, [], [], []⟩
  | some u =>
      let payload := patientPayloadOf u data
      let resp := db payload
      match resp.error with
      | some e =>
          ⟨none, [payload], [⟨"Error al crear paciente.", false⟩],
            ["[patients] create error: " ++ e]⟩
      | none =>
          ⟨resp.data, [payload], [⟨"Paciente creado exitosamente.", true⟩], []⟩

/-- `patients.list()`: one fixed query; on error it logs, toasts and
returns `[]`; otherwise returns `data || []`. -/
def patientsList (resp : DbResponse (List PatientRow)) :
    CallResult (List PatientRow) Unit :=
  match resp.error with
  | some e =>
      ⟨[], [()], [⟨"Error al cargar pacientes.", false⟩],
        ["[patients] list error: " ++ e]⟩
  | none => ⟨resp.data.getD [], [()], [], []⟩

/-- `patients.getById(id)`: on error it logs (no toast) and returns
`null`; otherwise returns the row. -/
def patientsGetById (db : String → DbResponse PatientRow) (id : String) :
    CallResult (Option PatientRow) String :=
  let resp := db id
  match resp.error with
  | some e => ⟨none, [id], [], ["[patients] getById error: " ++ e]⟩
  | none => ⟨resp.data, [id], [], []⟩

/-! ## Wounds (src/js/wounds.js) -/

/-- The `data` argument of `wounds.create`. -/
structure WoundInput where
  type : Option String
  location : Option String
  dimensions : Option String
  status : Option String
deriving DecidableEq, Repr

/-- The insert payload built by `wounds.create` (lines 26–32): `type`,
`location`, `dimensions` default to `''`, `status` defaults to
`'active'`, all via JS `||`. -/
structure WoundPayload where
  patient_id : String
  type : String
  location : String
  dimensions : String
  status : String
deriving DecidableEq, Repr

/-- A stored/returned wound row: payload fields plus server-assigned
`id` and `created_at`. -/
structure WoundRow where
  id : String
  patient_id : String
  type : String
  location : String
  dimensions : String
  status : String
  created_at : Nat
deriving DecidableEq, Repr

def woundPayloadOf (patientId : String) (data : WoundInput) : WoundPayload :=
  { patient_id := patientId
    type := jsOr data.type ""
    location := jsOr data.location ""
    dimensions := jsOr data.dimensions ""
    status := jsOr data.status "active" }

/-- `wounds.create(patientId, data)`. -/
def woundsCreate (patientId : String)
    (db : WoundPayload → DbResponse WoundRow)
    (data : WoundInput) : CallResult (Option WoundRow) WoundPayload :=
  let payload := woundPayloadOf patientId data
  let resp := db payload
  match resp.error with
  | some e =>
      ⟨none, [payload], [⟨"Error al registrar herida.", false⟩],
        ["[wounds] create error: " ++ e]⟩
  | none =>
      ⟨resp.data, [payload], [⟨"Herida registrada exitosamente.", true⟩], []⟩

/-- `wounds.listByPatient(patientId)`: on error it logs (no toast) and
returns `[]`; otherwise `data || []`. The query (eq-filter on
`patient_id`, order `created_at` descending) is answered by `db`. -/
def woundsListByPatient (db : String → DbResponse (List WoundRow))
    (patientId : String) : CallResult (List WoundRow) String :=
  let resp := db patientId
  match resp.error with
  | some e =>
      ⟨[], [patientId], [], ["[wounds] listByPatient error: " ++ e]⟩
  | none => ⟨resp.data.getD [], [patientId], [], []⟩

/-- `wounds.getById(woundId)`: on error it logs (no toast) and returns
`null`. -/
def woundsGetById (db : String → DbResponse WoundRow) (woundId : String) :
    CallResult (Option WoundRow) String :=
  let resp := db woundId
  match resp.error with
  | some e => ⟨none, [woundId], [], ["[wounds] getById error: " ++ e]⟩
  | none => ⟨resp.data, [woundId], [], []⟩

/-! ## Treatments (src/js/treatments.js) -/

/-- The `data` argument of `treatments.create`. -/
structure TreatmentInput where
  technique : Option String
  supplies : Option String
  notes : Option String
deriving DecidableEq, Repr

/-- The insert payload built by `treatments.create` (lines 25–31): text
fields default to `''`; `created_at` is set by the caller to
`new Date().toISOString()`, modelled as the `nowIso` argument. -/
structure TreatmentPayload where
  wound_id : String
  technique : String
  supplies : String
  notes : String
  created_at : String
deriving DecidableEq, Repr

/-- A stored/returned treatment row: payload fields (including the
caller-supplied `created_at`) plus the server-assigned `id`. -/
structure TreatmentRow where
  id : String
  wound_id : String
  technique : String
  supplies : String
  notes : String
  created_at : String
deriving DecidableEq, Repr

def treatmentPayloadOf (woundId : String) (data : TreatmentInput)
    (nowIso : String) : TreatmentPayload :=
  { wound_id := woundId
    technique := jsOr data.technique ""
    supplies := jsOr data.supplies ""
    notes := jsOr data.notes ""
    created_at := nowIso }

/-- `treatments.create(woundId, data)`; `nowIso` is the ISO rendering of
the current time at the moment of the call. -/
def treatmentsCreate (woundId : String)
    (db : TreatmentPayload → DbResponse TreatmentRow)
    (data : TreatmentInput) (nowIso : String) :
    CallResult (Option TreatmentRow) TreatmentPayload :=
  let payload := treatmentPayloadOf woundId data nowIso
  let resp := db payload
  match resp.error with
  | some e =>
      ⟨none, [payload], [⟨"Error al registrar curación.", false⟩],
        ["[treatments] create error: " ++ e]⟩
  | none =>
      ⟨resp.data, [payload], [⟨"Curación registrada exitosamente.", true⟩], []⟩

/-- `treatments.listByWound(woundId)`: on error it logs (no toast) and
returns `[]`; otherwise `data || []`. -/
def treatmentsListByWound (db : String → DbResponse (List TreatmentRow))
    (woundId : String) : CallResult (List TreatmentRow) String :=
  let resp := db woundId
  match resp.error with
  | some e =>
      ⟨[], [woundId], [], ["[treatments] listByWound error: " ++ e]⟩
  | none => ⟨resp.data.getD [], [woundId], [], []⟩

/-! ## Backend model

The remote data-access client's contract (spec §6): insert-one echoes the
inserted row (plus server-assigned fields), read-many applies the
eq-filter and sorts by the order key descending, read-one (`.single()`)
succeeds exactly when the filter matches one row. -/

/-- Insert `x` into a list that is already sorted by `key` in
non-increasing order, keeping it sorted. -/
def insertDescBy {α κ : Type} (key : α → κ) [LinearOrder κ] (x : α) :
    List α → List α
  | [] => [x]
  | y :: ys => if key y ≤ key x then x :: y :: ys else y :: insertDescBy key x ys

/-- Sort a list by `key` in non-increasing order (insertion sort),
modelling `.order(k, ascending: false)`. -/
def sortDescBy {α κ : Type} (key : α → κ) [LinearOrder κ] :
    List α → List α
  | [] => []
  | x :: xs => insertDescBy key x (sortDescBy key xs)

/-- Decidable check that a list is sorted by `key` non-increasingly. -/
def sortedDescB {α κ : Type} (key : α → κ) [LinearOrder κ] :
    List α → Bool
  | [] => true
  | [_] => true
  | x :: y :: r => decide (key y ≤ key x) && sortedDescB key (y :: r)

theorem mem_insertDescBy {α κ : Type} (key : α → κ) [LinearOrder κ]
    (x a : α) (l : List α) :
    a ∈ insertDescBy key x l ↔ a = x ∨ a ∈ l := by
  induction l with
  | nil => simp [insertDescBy]
  | cons y ys ih =>
      by_cases h : key y ≤ key x
      · simp [insertDescBy, h]
      · simp [insertDescBy, h, ih]
        tauto

theorem mem_sortDescBy {α κ : Type} (key : α → κ) [LinearOrder κ]
    (a : α) (l : List α) :
    a ∈ sortDescBy key l ↔ a ∈ l := by
  induction l with
  | nil => simp [sortDescBy]
  | cons x xs ih => simp [sortDescBy, mem_insertDescBy, ih]

theorem sortedDescB_insertDescBy {α κ : Type} (key : α → κ) [LinearOrder κ]
    (x : α) (l : List α) (h : sortedDescB key l = true) :
    sortedDescB key (insertDescBy key x l) = true := by
  induction l with
  | nil => simp [insertDescBy, sortedDescB]
  | cons y ys ih =>
      by_cases hyx : key y ≤ key x
      · simpa [insertDescBy, hyx, sortedDescB] using h
      · have hxy : key x ≤ key y := le_of_not_le hyx
        cases ys with
        | nil => simp [insertDescBy, hyx, sortedDescB, hxy]
        | cons z zs =>
            have hzy : key z ≤ key y := by
              simp [sortedDescB] at h
              exact h.1
            have hzs : sortedDescB key (z :: zs) = true := by
              simp [sortedDescB] at h ⊢
              exact h.2
            have ih2 := ih hzs
            by_cases hzx : key z ≤ key x
            · simp [insertDescBy, hyx, hzx, sortedDescB, hxy, hzy] at ih2 ⊢
              exact hzs
            · simp [insertDescBy, hyx, hzx, sortedDescB, hzy] at ih2 ⊢
              exact ih2

theorem sortedDescB_sortDescBy {α κ : Type} (key : α → κ) [LinearOrder κ]
    (l : List α) : sortedDescB key (sortDescBy key l) = true := by
  induction l with
  | nil => simp [sortDescBy, sortedDescB]
  | cons x xs ih => exact sortedDescB_insertDescBy key x _ ih

theorem all_sortDescBy {α κ : Type} (key : α → κ) [LinearOrder κ]
    (p : α → Bool) (l : List α) :
    (sortDescBy key l).all p = l.all p := by
  rw [Bool.eq_iff_iff]
  simp only [List.all_eq_true]
  constructor
  · intro h a ha
    exact h a ((mem_sortDescBy key a l).mpr ha)
  · intro h a ha
    exact h a ((mem_sortDescBy key a l).mp ha)

/-- The select half of the wounds backend:
`.eq('patient_id', pid).order('created_at', descending)`. -/
def woundsSelect (store : List WoundRow) (pid : String) : List WoundRow :=
  sortDescBy WoundRow.created_at (store.filter fun w => w.patient_id == pid)

/-- The select half of the treatments backend:
`.eq('wound_id', wid).order('created_at', descending)`. -/
def treatmentsSelect (store : List TreatmentRow) (wid : String) :
    List TreatmentRow :=
  sortDescBy TreatmentRow.created_at (store.filter fun t => t.wound_id == wid)

/-- `.eq('id', id).single()` over a stored table: exactly one match
yields the row, anything else is an error. -/
def selectSingleById {ρ : Type} (rowId : ρ → String) (store : List ρ)
    (id : String) : DbResponse ρ :=
  match store.filter fun r => rowId r == id with
  | [r] => ⟨some r, none⟩
  | _ => ⟨none, some "JSON object requested, multiple (or no) rows returned"⟩

/-- The row echoed back by a patients insert: the payload plus the
server-assigned `id` and `created_at`. -/
def patientRowOf (fid : String) (now : Nat) (p : PatientPayload) : PatientRow :=
  ⟨fid, p.name, p.age, p.diagnosis, p.comorbidities, p.professional_id, now⟩

/-- An echoing patients insert backend. -/
def patientEchoDb (fid : String) (now : Nat) :
    PatientPayload → DbResponse PatientRow :=
  fun p => ⟨some (patientRowOf fid now p), none⟩

/-- The row echoed back by a wounds insert. -/
def woundRowOf (fid : String) (now : Nat) (p : WoundPayload) : WoundRow :=
  ⟨fid, p.patient_id, p.type, p.location, p.dimensions, p.status, now⟩

/-- An echoing wounds insert backend. -/
def woundEchoDb (fid : String) (now : Nat) :
    WoundPayload → DbResponse WoundRow :=
  fun p => ⟨some (woundRowOf fid now p), none⟩

/-- The row echoed back by a treatments insert (`created_at` comes from
the payload itself). -/
def treatmentRowOf (fid : String) (p : TreatmentPayload) : TreatmentRow :=
  ⟨fid, p.wound_id, p.technique, p.supplies, p.notes, p.created_at⟩

/-- An echoing treatments insert backend. -/
def treatmentEchoDb (fid : String) :
    TreatmentPayload → DbResponse TreatmentRow :=
  fun p => ⟨some (treatmentRowOf fid p), none⟩

/-! ## Claims -/

/-- Claim C1: with no authenticated current user, `patients.create`
returns `null`, issues no backend request, and emits neither a toast nor
a log line. -/
theorem patientsCreate_unauthenticated_silent
    (db : PatientPayload → DbResponse PatientRow) (data : PatientInput) :
    patientsCreate none db data = ⟨none, [], [], []⟩ := rfl

/-- Claim C2, counterexample: with an authenticated user and an absent
`name`, the insert record's `name` stays absent (`undefined`), not the
empty string — `name: data.name` has no default, unlike
`diagnosis`/`comorbidities`. -/
theorem patientsCreate_name_not_defaulted :
    (patientsCreate (some ⟨"u1"⟩) (patientEchoDb "pt1" 0)
        ⟨none, "30", none, none⟩).requests.map PatientPayload.name = [none] ∧
    [(none : Option String)] ≠ [some ""] :=
  ⟨rfl, by decide⟩

/-- Claim C2, amended: with an authenticated caller, `patients.create`
issues exactly one insert whose record has `age = parseInt(data.age, 10)`,
`diagnosis` and `comorbidities` defaulted to the empty string when
absent, `name` passed through unchanged (absent stays absent), and
`professional_id` equal to the current user's id; on backend success it
returns the echoed row with these values. -/
theorem patientsCreate_payload_amended (u : User) (fid : String) (now : Nat)
    (data : PatientInput) :
    (patientsCreate (some u) (patientEchoDb fid now) data).result =
      some (patientRowOf fid now (patientPayloadOf u data)) ∧
    (patientsCreate (some u) (patientEchoDb fid now) data).requests =
      [patientPayloadOf u data] ∧
    patientPayloadOf u data =
      ⟨data.name, parseInt10 data.age, jsOr data.diagnosis "",
        jsOr data.comorbidities "", u.id⟩ ∧
    patientPayloadOf u ⟨data.name, data.age, none, none⟩ =
      ⟨data.name, parseInt10 data.age, "", "", u.id⟩ :=
  ⟨rfl, rfl, rfl, rfl⟩

/-- Claim C3, counterexample: `wounds.listByPatient` on a backend error
logs but emits no toast at all — the generic localized message required
by the claim is missing on this path. -/
theorem woundsListByPatient_error_silent :
    (woundsListByPatient (fun _ => ⟨none, some "network failure"⟩) "p1").toasts
        = [] ∧
    (woundsListByPatient (fun _ => ⟨none, some "network failure"⟩) "p1").logs
        = ["[wounds] listByPatient error: network failure"] :=
  ⟨rfl, rfl⟩

/-- Claim C3, amended: on any backend error every operation logs the
error with operation context and returns an empty/null result; the three
`create` operations and `patients.list` additionally surface a generic
localized toast, while `patients.getById`, `wounds.listByPatient`,
`wounds.getById` and `treatments.listByWound` emit no user-facing
message. -/
theorem backendError_uniform_amended (e : String) (u : User)
    (pdata : PatientInput) (wdata : WoundInput) (tdata : TreatmentInput)
    (pid wid gid nowIso : String)
    (d1 : Option PatientRow) (d2 : Option (List PatientRow))
    (d3 : Option PatientRow) (d4 : Option WoundRow)
    (d5 : Option (List WoundRow)) (d6 : Option WoundRow)
    (d7 : Option TreatmentRow) (d8 : Option (List TreatmentRow)) :
    patientsCreate (some u) (fun _ => ⟨d1, some e⟩) pdata =
      ⟨none, [patientPayloadOf u pdata], [⟨"Error al crear paciente.", false⟩],
        ["[patients] create error: " ++ e]⟩ ∧
    patientsList ⟨d2, some e⟩ =
      ⟨[], [()], [⟨"Error al cargar pacientes.", false⟩],
        ["[patients] list error: " ++ e]⟩ ∧
    patientsGetById (fun _ => ⟨d3, some e⟩) gid =
      ⟨none, [gid], [], ["[patients] getById error: " ++ e]⟩ ∧
    woundsCreate pid (fun _ => ⟨d4, some e⟩) wdata =
      ⟨none, [woundPayloadOf pid wdata], [⟨"Error al registrar herida.", false⟩],
        ["[wounds] create error: " ++ e]⟩ ∧
    woundsListByPatient (fun _ => ⟨d5, some e⟩) pid =
      ⟨[], [pid], [], ["[wounds] listByPatient error: " ++ e]⟩ ∧
    woundsGetById (fun _ => ⟨d6, some e⟩) gid =
      ⟨none, [gid], [], ["[wounds] getById error: " ++ e]⟩ ∧
    treatmentsCreate wid (fun _ => ⟨d7, some e⟩) tdata nowIso =
      ⟨none, [treatmentPayloadOf wid tdata nowIso],
        [⟨"Error al registrar curación.", false⟩],
        ["[treatments] create error: " ++ e]⟩ ∧
    treatmentsListByWound (fun _ => ⟨d8, some e⟩) wid =
      ⟨[], [wid], [], ["[treatments] listByWound error: " ++ e]⟩ :=
  ⟨rfl, rfl, rfl, rfl, rfl, rfl, rfl, rfl⟩

/-- Claim C4: for each of the three stores, `create` on a backend error
returns `null`; the operations are total functions of the response, so
no exception escapes the call boundary. -/
theorem create_backendError_returns_null (e : String) (u : User)
    (pid wid nowIso : String)
    (pdata : PatientInput) (wdata : WoundInput) (tdata : TreatmentInput)
    (d1 : Option PatientRow) (d4 : Option WoundRow) (d7 : Option TreatmentRow) :
    (patientsCreate (some u) (fun _ => ⟨d1, some e⟩) pdata).result = none ∧
    (woundsCreate pid (fun _ => ⟨d4, some e⟩) wdata).result = none ∧
    (treatmentsCreate wid (fun _ => ⟨d7, some e⟩) tdata nowIso).result = none :=
  ⟨rfl, rfl, rfl⟩

/-- Claim C9: the list operations always return a list; with no error
and absent (`null`) data they return `[]` (the `data || []` fallback),
with present data they return it unchanged, and on error they return
`[]`. -/
theorem list_ops_total_empty_default (pid wid e : String)
    (pl : List PatientRow) (wl : List WoundRow) (tl : List TreatmentRow) :
    (patientsList ⟨none, none⟩).result = [] ∧
    (patientsList ⟨some pl, none⟩).result = pl ∧
    (patientsList ⟨none, some e⟩).result = [] ∧
    (woundsListByPatient (fun _ => ⟨none, none⟩) pid).result = [] ∧
    (woundsListByPatient (fun _ => ⟨some wl, none⟩) pid).result = wl ∧
    (woundsListByPatient (fun _ => ⟨none, some e⟩) pid).result = [] ∧
    (treatmentsListByWound (fun _ => ⟨none, none⟩) wid).result = [] ∧
    (treatmentsListByWound (fun _ => ⟨some tl, none⟩) wid).result = tl ∧
    (treatmentsListByWound (fun _ => ⟨none, some e⟩) wid).result = [] :=
  ⟨rfl, rfl, rfl, rfl, rfl, rfl, rfl, rfl, rfl⟩

theorem all_filter_self {α : Type} (p : α → Bool) (l : List α) :
    (l.filter p).all p = true := by
  rw [List.all_eq_true]
  intro a ha
  exact (List.mem_filter.mp ha).2

/-- Claim C5: against a backend honouring its select contract,
`wounds.listByPatient(pid)` returns only rows with `patient_id = pid`
and `treatments.listByWound(wid)` only rows with `wound_id = wid`, each
sorted by `created_at` non-increasingly. -/
theorem listBy_filtered_and_sorted (wstore : List WoundRow)
    (tstore : List TreatmentRow) (pid wid : String) :
    ((woundsListByPatient (fun p => ⟨some (woundsSelect wstore p), none⟩)
        pid).result.all fun w => w.patient_id == pid) = true ∧
    sortedDescB WoundRow.created_at
      (woundsListByPatient (fun p => ⟨some (woundsSelect wstore p), none⟩)
        pid).result = true ∧
    ((treatmentsListByWound (fun w => ⟨some (treatmentsSelect tstore w), none⟩)
        wid).result.all fun t => t.wound_id == wid) = true ∧
    sortedDescB TreatmentRow.created_at
      (treatmentsListByWound (fun w => ⟨some (treatmentsSelect tstore w), none⟩)
        wid).result = true := by
  refine ⟨?_, ?_, ?_, ?_⟩
  · show ((woundsSelect wstore pid).all fun w => w.patient_id == pid) = true
    rw [woundsSelect, all_sortDescBy]
    exact all_filter_self _ _
  · show sortedDescB WoundRow.created_at (woundsSelect wstore pid) = true
    exact sortedDescB_sortDescBy _ _
  · show ((treatmentsSelect tstore wid).all fun t => t.wound_id == wid) = true
    rw [treatmentsSelect, all_sortDescBy]
    exact all_filter_self _ _
  · show sortedDescB TreatmentRow.created_at (treatmentsSelect tstore wid) = true
    exact sortedDescB_sortDescBy _ _

/-- Claim C6: `treatments.create(woundId, data)` issues exactly one
insert whose record binds `wound_id` to `woundId`, defaults
`technique`/`supplies`/`notes` to the empty string when absent, and sets
`created_at` on the caller side to the ISO rendering of the current
time (the spec's scenario instance is included verbatim). -/
theorem treatmentsCreate_payload_timestamp (woundId nowIso : String)
    (data : TreatmentInput)
    (db : TreatmentPayload → DbResponse TreatmentRow) :
    (treatmentsCreate woundId db data nowIso).requests =
      [treatmentPayloadOf woundId data nowIso] ∧
    (treatmentPayloadOf woundId data nowIso).wound_id = woundId ∧
    (treatmentPayloadOf woundId data nowIso).created_at = nowIso ∧
    treatmentPayloadOf woundId ⟨none, none, none⟩ nowIso =
      ⟨woundId, "", "", "", nowIso⟩ ∧
    treatmentPayloadOf "w1" ⟨some "debridement", none, none⟩ nowIso =
      ⟨"w1", "debridement", "", "", nowIso⟩ := by
  refine ⟨?_, rfl, rfl, rfl, ?_⟩
  · cases h : (db (treatmentPayloadOf woundId data nowIso)).error with
    | none => simp [treatmentsCreate, h]
    | some e => simp [treatmentsCreate, h]
  · simp [treatmentPayloadOf, jsOr]

/-- Claim C7, counterexample: a caller-supplied empty-string `status`
does not appear verbatim — JS `||` treats it as falsy, so the record
carries `'active'` instead. -/
theorem woundsCreate_empty_status_not_verbatim :
    (woundsCreate "p1" (woundEchoDb "w1" 0)
        ⟨some "pressure ulcer", some "heel", some "2x3cm", some ""⟩).requests.map
        WoundPayload.status = ["active"] ∧
    ("active" : String) ≠ "" :=
  ⟨by simp [woundsCreate, woundEchoDb, woundPayloadOf, jsOr], by decide⟩

/-- The amended shape of the wounds insert record: one request, echoed
on success; `type`/`location`/`dimensions` default to the empty string
when absent and appear verbatim when supplied; `status` defaults to
`'active'` when absent or empty (JS falsiness) and appears verbatim when
supplied non-empty; the spec's scenario instance holds. -/
def WoundsCreatePayloadSpec (pid fid : String) (now : Nat)
    (data : WoundInput) (t l m s : String) : Prop :=
  (woundsCreate pid (woundEchoDb fid now) data).requests =
      [woundPayloadOf pid data] ∧
  (woundsCreate pid (woundEchoDb fid now) data).result =
      some (woundRowOf fid now (woundPayloadOf pid data)) ∧
  woundPayloadOf pid data =
      ⟨pid, jsOr data.type "", jsOr data.location "", jsOr data.dimensions "",
        jsOr data.status "active"⟩ ∧
  woundPayloadOf pid ⟨some t, some l, some m, some s⟩ = ⟨pid, t, l, m, s⟩ ∧
  woundPayloadOf pid ⟨none, none, none, none⟩ = ⟨pid, "", "", "", "active"⟩ ∧
  woundPayloadOf "p1" ⟨some "pressure ulcer", some "heel", some "2x3cm", none⟩ =
      ⟨"p1", "pressure ulcer", "heel", "2x3cm", "active"⟩

/-- Claim C7, amended: as `WoundsCreatePayloadSpec` states, with the
supplied-verbatim guarantee for `status` restricted to non-empty
values. -/
theorem woundsCreate_payload_amended (pid fid : String) (now : Nat)
    (data : WoundInput) (t l m s : String) (hs : s ≠ "") :
    WoundsCreatePayloadSpec pid fid now data t l m s := by
  refine ⟨rfl, rfl, rfl, ?_, rfl, by simp [woundPayloadOf, jsOr]⟩
  have ht : jsOr (some t) "" = t := by by_cases h : t = "" <;> simp [jsOr, h]
  have hl : jsOr (some l) "" = l := by by_cases h : l = "" <;> simp [jsOr, h]
  have hm : jsOr (some m) "" = m := by by_cases h : m = "" <;> simp [jsOr, h]
  have hst : jsOr (some s) "active" = s := by simp [jsOr, hs]
  simp [woundPayloadOf, ht, hl, hm, hst]

/-- Concrete instance of the C7 amended theorem. -/
theorem woundsCreate_payload_amended_witness :
    WoundsCreatePayloadSpec "p1" "w1" 3 ⟨some "burn", none, some "", some ""⟩
      "t1" "l1" "" "healing" :=
  woundsCreate_payload_amended "p1" "w1" 3 ⟨some "burn", none, some "", some ""⟩
    "t1" "l1" "" "healing" (by decide)

theorem filter_append_unique {ρ : Type} (rowId : ρ → String) (store : List ρ)
    (row : ρ) (fid : String) (hrow : rowId row = fid)
    (h : ∀ r ∈ store, rowId r ≠ fid) :
    (store ++ [row]).filter (fun r => rowId r == fid) = [row] := by
  rw [List.filter_append]
  have h1 : store.filter (fun r => rowId r == fid) = [] := by
    rw [List.filter_eq_nil_iff]
    intro a ha
    simp [h a ha]
  rw [h1]
  simp [hrow]

theorem selectSingleById_found {ρ : Type} (rowId : ρ → String) (store : List ρ)
    (row : ρ) (fid : String) (hrow : rowId row = fid)
    (h : ∀ r ∈ store, rowId r ≠ fid) :
    selectSingleById rowId (store ++ [row]) fid = ⟨some row, none⟩ := by
  unfold selectSingleById
  rw [filter_append_unique rowId store row fid hrow h]

/-- Round-trip for patients: against an echoing backend, `create`
returns the inserted row and `getById` on the new table state returns
the very same row. -/
def PatientRoundtrip (store : List PatientRow) (fid : String) (now : Nat)
    (u : User) (data : PatientInput) : Prop :=
  (patientsCreate (some u) (patientEchoDb fid now) data).result =
      some (patientRowOf fid now (patientPayloadOf u data)) ∧
  (patientsGetById
      (selectSingleById PatientRow.id
        (store ++ [patientRowOf fid now (patientPayloadOf u data)]))
      fid).result =
    some (patientRowOf fid now (patientPayloadOf u data))

/-- Round-trip for wounds: `create` returns the inserted row and
`getById` on the new table state returns the same row. -/
def WoundRoundtrip (store : List WoundRow) (fid : String) (now : Nat)
    (pid : String) (data : WoundInput) : Prop :=
  (woundsCreate pid (woundEchoDb fid now) data).result =
      some (woundRowOf fid now (woundPayloadOf pid data)) ∧
  (woundsGetById
      (selectSingleById WoundRow.id
        (store ++ [woundRowOf fid now (woundPayloadOf pid data)]))
      fid).result =
    some (woundRowOf fid now (woundPayloadOf pid data))

/-- Round-trip for treatments: `create` returns the inserted row and
`listByWound` on the new table state contains the same row unchanged. -/
def TreatmentRoundtrip (store : List TreatmentRow) (fid wid : String)
    (data : TreatmentInput) (nowIso : String) : Prop :=
  (treatmentsCreate wid (treatmentEchoDb fid) data nowIso).result =
      some (treatmentRowOf fid (treatmentPayloadOf wid data nowIso)) ∧
  treatmentRowOf fid (treatmentPayloadOf wid data nowIso) ∈
    (treatmentsListByWound
        (fun w => ⟨some (treatmentsSelect
          (store ++ [treatmentRowOf fid (treatmentPayloadOf wid data nowIso)])
          w), none⟩)
        wid).result

/-- Claim C8: with a stub backend echoing inserted rows, each store's
`create` result is retrievable field-for-field unchanged via
`getById` (patients, wounds) or `listByWound` (treatments), provided
the server-assigned id is fresh for the stored table. -/
theorem createThenRead_roundtrip
    (pstore : List PatientRow) (pfid : String) (pnow : Nat) (u : User)
    (pdata : PatientInput)
    (wstore : List WoundRow) (wfid : String) (wnow : Nat) (wpid : String)
    (wdata : WoundInput)
    (tstore : List TreatmentRow) (tfid twid : String)
    (tdata : TreatmentInput) (nowIso : String)
    (hp : ∀ r ∈ pstore, r.id ≠ pfid) (hw : ∀ r ∈ wstore, r.id ≠ wfid) :
    PatientRoundtrip pstore pfid pnow u pdata ∧
    WoundRoundtrip wstore wfid wnow wpid wdata ∧
    TreatmentRoundtrip tstore tfid twid tdata nowIso := by
  refine ⟨⟨rfl, ?_⟩, ⟨rfl, ?_⟩, ⟨rfl, ?_⟩⟩
  · have hsel := selectSingleById_found PatientRow.id pstore
      (patientRowOf pfid pnow (patientPayloadOf u pdata)) pfid rfl hp
    simp [patientsGetById, hsel]
  · have hsel := selectSingleById_found WoundRow.id wstore
      (woundRowOf wfid wnow (woundPayloadOf wpid wdata)) wfid rfl hw
    simp [woundsGetById, hsel]
  · show treatmentRowOf tfid (treatmentPayloadOf twid tdata nowIso) ∈
      treatmentsSelect
        (tstore ++ [treatmentRowOf tfid (treatmentPayloadOf twid tdata nowIso)])
        twid
    rw [treatmentsSelect, mem_sortDescBy, List.mem_filter]
    exact ⟨List.mem_append_right _ (List.mem_singleton.mpr rfl), by
      simp [treatmentRowOf, treatmentPayloadOf]⟩

/-- Concrete instance of the C8 round-trip theorem. -/
theorem createThenRead_roundtrip_witness :
    PatientRoundtrip [] "pt1" 5 ⟨"u1"⟩ ⟨some "Ana", "30", none, none⟩ ∧
    WoundRoundtrip [] "w1" 7 "pt1"
      ⟨some "pressure ulcer", some "heel", some "2x3cm", none⟩ ∧
    TreatmentRoundtrip [] "t1" "w1" ⟨some "debridement", none, none⟩
      "2026-01-01T00:00:00.000Z" :=
  createThenRead_roundtrip [] "pt1" 5 ⟨"u1"⟩ ⟨some "Ana", "30", none, none⟩
    [] "w1" 7 "pt1" ⟨some "pressure ulcer", some "heel", some "2x3cm", none⟩
    [] "t1" "w1" ⟨some "debridement", none, none⟩ "2026-01-01T00:00:00.000Z"
    (by simp) (by simp)

/-- Claim C10: `patients.create` performs no local validation of `age` —
the insert payload carries exactly `parseInt(data.age, 10)`, so a
non-numeric age yields `NaN` (`none`) and a negative age passes through,
and in both cases the backend request is still issued. -/
theorem patientsCreate_no_age_validation (u : User) (nm : Option String)
    (diag com : Option String) (age : String)
    (db : PatientPayload → DbResponse PatientRow) :
    (patientsCreate (some u) db ⟨nm, age, diag, com⟩).requests.map
        PatientPayload.age = [parseInt10 age] ∧
    parseInt10 "abc" = none ∧
    parseInt10 "-5" = some (-5) ∧
    (patientsCreate (some u) db ⟨nm, age, diag, com⟩).requests.length = 1 := by
  have hreq : (patientsCreate (some u) db ⟨nm, age, diag, com⟩).requests =
      [patientPayloadOf u ⟨nm, age, diag, com⟩] := by
    cases h : (db (patientPayloadOf u ⟨nm, age, diag, com⟩)).error with
    | none => simp [patientsCreate, h]
    | some e => simp [patientsCreate, h]
  refine ⟨?_, by decide, by decide, ?_⟩
  · rw [hreq]
    rfl
  · rw [hreq]
    rfl
